import Mathlib

/-!
Verification of the Iris model-serving endpoints in `app/server.py`.

The server holds process-wide state (the loaded model handle and the
currently served version string) and exposes four HTTP handlers:
`health`, `predict`, `get_model_version` and `set_model_version`.
Each handler is embedded as a pure function of an explicit
`ServingState`, returning the (possibly updated) state together with
its response.  The MLflow registry is an external collaborator, so it
is passed in as a parameter `registry : String → Except String H`
mapping a model URI either to a loaded handle (of an arbitrary type
`H`, since handles are opaque) or to an exception message.  Sample
measurements are floats the handler never computes with; they are
embedded as rationals so that non-negativity is decidable.
-/

namespace IrisServer

/-- `MODEL_NAME` in `app/server.py`: the hard-coded registered model name. -/
def MODEL_NAME : String := "iris-classifier"

/-- `MODEL_VERSION` in `app/server.py`: the default configured version. -/
def MODEL_VERSION : String := "1"

/-- The URI shape `models:/{MODEL_NAME}/{version}` used both for the startup
load and inside `_load_model_for_version`. -/
def modelUriFor (version : String) : String :=
  "models:/" ++ MODEL_NAME ++ "/" ++ version

/-- `MODEL_URI` in `app/server.py`: computed once at module load from the
default version, and never reassigned afterwards. -/
def MODEL_URI : String := modelUriFor MODEL_VERSION

/-- `_load_model_for_version(version)`: builds the registry URI for `version`
and asks the registry for the model at that URI. -/
def loadModelForVersion {H : Type} (registry : String → Except String H)
    (version : String) : Except String H :=
  registry (modelUriFor version)

/-- `IrisSample`: four non-negative measurements (cm).  The handler never
computes with them, so the float fields are embedded as rationals. -/
structure IrisSample where
  sepal_length : ℚ
  sepal_width : ℚ
  petal_length : ℚ
  petal_width : ℚ
deriving DecidableEq, Repr

/-- The `ge=0` constraints that pydantic's `Field(..., ge=0)` enforces on
each measurement. -/
def IrisSample.valid (s : IrisSample) : Prop :=
  0 ≤ s.sepal_length ∧ 0 ≤ s.sepal_width ∧ 0 ≤ s.petal_length ∧ 0 ≤ s.petal_width

instance (s : IrisSample) : Decidable s.valid := by
  unfold IrisSample.valid
  infer_instance

/-- `PredictRequest`: a batch of samples. -/
structure PredictRequest where
  samples : List IrisSample
deriving DecidableEq, Repr

/-- `IRIS_LABELS`: the fixed id → label table. -/
def IRIS_LABELS : Int → Option String
  | 0 => some "setosa"
  | 1 => some "versicolor"
  | 2 => some "virginica"
  | _ => none

/-- `PredictResponse`: parallel lists of class ids and class labels. -/
structure PredictResponse where
  class_id : List Int
  class_label : List String
deriving DecidableEq, Repr

/-- `SelectVersionRequest`: body of `POST /model/version`. -/
structure SelectVersionRequest where
  version : String
deriving DecidableEq, Repr

/-- The JSON object returned by `GET /health`. -/
structure HealthResponse where
  status : String
  model_uri : String
deriving DecidableEq, Repr

/-- The JSON object `{model_name, version}` returned by both
`GET /model/version` and a successful `POST /model/version`
(the spec's `ModelIdentity`). -/
structure ModelIdentity where
  model_name : String
  version : String
deriving DecidableEq, Repr

/-- An HTTP error response raised via `HTTPException(status_code, detail)`. -/
structure HTTPError where
  status_code : Nat
  detail : String
deriving DecidableEq, Repr

/-- The process-wide mutable state: the global `model` handle and
`CURRENT_SERVED_VERSION`. -/
structure ServingState (H : Type) where
  model : H
  current_served_version : String
deriving DecidableEq, Repr

/-- The state after module initialization: the handle loaded from
`MODEL_URI` plus `CURRENT_SERVED_VERSION = MODEL_VERSION`. -/
def initState {H : Type} (initialModel : H) : ServingState H :=
  { model := initialModel, current_served_version := MODEL_VERSION }

/-- `GET /health`: returns `{"status": "ok", "model_uri": MODEL_URI}`.
Reads no mutable state (`MODEL_URI` is the module-load constant). -/
def health {H : Type} (s : ServingState H) :
    ServingState H × HealthResponse :=
  (s, { status := "ok", model_uri := MODEL_URI })

/-- `POST /predict`: the handler body is `return PredictResponse(class_id=[],
class_label=[])` under a `# TODO Run predict` comment — it ignores both the
request and the loaded model and cannot raise. -/
def predict {H : Type} (s : ServingState H) (req : PredictRequest) :
    ServingState H × PredictResponse :=
  (s, { class_id := [], class_label := [] })

/-- `GET /model/version`: returns the configured name and the current
`CURRENT_SERVED_VERSION`, unchanged. -/
def getModelVersion {H : Type} (s : ServingState H) :
    ServingState H × ModelIdentity :=
  (s, { model_name := MODEL_NAME, version := s.current_served_version })

/-- `POST /model/version`: tries `_load_model_for_version(req.version)`;
on an exception `e` it raises `HTTPException(404, "Could not load version
'<v>': <e>")` leaving the globals untouched, otherwise it assigns the loaded
handle to `model`, sets `CURRENT_SERVED_VERSION`, and returns the new
identity. -/
def setModelVersion {H : Type} (registry : String → Except String H)
    (s : ServingState H) (req : SelectVersionRequest) :
    ServingState H × Except HTTPError ModelIdentity :=
  match loadModelForVersion registry req.version with
  | Except.error e =>
      (s, Except.error
        { status_code := 404
          detail := "Could not load version '" ++ req.version ++ "': " ++ e })
  | Except.ok loaded =>
      ({ model := loaded, current_served_version := req.version },
       Except.ok { model_name := MODEL_NAME, version := req.version })

/-- A concrete registry for closed statements: version `"2"` of the
configured model resolves to handle `42`, every other URI raises. -/
def sampleRegistry : String → Except String Nat :=
  fun uri =>
    if uri = modelUriFor "2" then Except.ok 42
    else Except.error "RESOURCE_DOES_NOT_EXIST"

/-- The concrete sample `{5.1, 3.5, 1.4, 0.2}` from the spec's scenario. -/
def setosaSample : IrisSample :=
  { sepal_length := 51/10, sepal_width := 35/10
    petal_length := 14/10, petal_width := 2/10 }

/-- C1: the claim says every non-empty valid batch yields one `class_id` and
one `class_label` per input sample; but at the valid one-sample batch
`[{5.1, 3.5, 1.4, 0.2}]` the handler returns empty lists (length 0 ≠ 1)
regardless of the served handle. -/
theorem predict_stub_empty_on_nonempty_batch :
    ({ samples := [setosaSample] } : PredictRequest).samples.length = 1 ∧
    (∀ samp ∈ ({ samples := [setosaSample] } : PredictRequest).samples,
        samp.valid) ∧
    (predict (initState (0 : Nat))
        { samples := [setosaSample] }).2.class_id = [] ∧
    (predict (initState (0 : Nat))
        { samples := [setosaSample] }).2.class_label = [] ∧
    (predict (initState (0 : Nat))
        { samples := [setosaSample] }).2.class_id.length ≠
      ({ samples := [setosaSample] } : PredictRequest).samples.length := by
  refine ⟨rfl, ?_, rfl, rfl, by decide⟩
  intro samp hs
  simp only [List.mem_singleton] at hs
  subst hs
  refine ⟨?_, ?_, ?_, ?_⟩ <;> norm_num [setosaSample]

/-- C3: after `set_model_version "2"` succeeds against a registry where
version `"2"` loads handle `42`, the returned identity and
`get_model_version` do report `"2"` and the state holds handle `42`; but the
subsequent `predict` call is not served by that handle — it returns the same
empty response as under any other state, never consulting the model. -/
theorem set_version_updates_state_but_predict_ignores_handle :
    (setModelVersion sampleRegistry (initState 7) { version := "2" }).2 =
      Except.ok { model_name := MODEL_NAME, version := "2" } ∧
    (setModelVersion sampleRegistry (initState 7)
        { version := "2" }).1.current_served_version = "2" ∧
    (setModelVersion sampleRegistry (initState 7)
        { version := "2" }).1.model = 42 ∧
    (getModelVersion (setModelVersion sampleRegistry (initState 7)
        { version := "2" }).1).2.version = "2" ∧
    (∀ req : PredictRequest,
      (predict (setModelVersion sampleRegistry (initState 7)
          { version := "2" }).1 req).2 =
        { class_id := [], class_label := [] }) ∧
    (∀ (h : Nat) (v : String) (req : PredictRequest),
      (predict (setModelVersion sampleRegistry (initState 7)
          { version := "2" }).1 req).2 =
        (predict { model := h, current_served_version := v } req).2) :=
  ⟨rfl, rfl, rfl, rfl, fun _ => rfl, fun _ _ _ => rfl⟩

/-- C4: when the registry load for the requested version raises, the handler
raises a 404 and the serving state — both the handle and the version string —
is left exactly as it was, so `get_model_version` and `predict` afterwards
behave exactly as before the failed call. -/
theorem set_version_failure_preserves_state {H : Type}
    (registry : String → Except String H) (s : ServingState H) (v e : String)
    (hload : registry (modelUriFor v) = Except.error e) :
    (setModelVersion registry s { version := v }).1 = s ∧
    (getModelVersion (setModelVersion registry s { version := v }).1).2 =
      (getModelVersion s).2 ∧
    (∀ req : PredictRequest,
      predict (setModelVersion registry s { version := v }).1 req =
        predict s req) ∧
    (setModelVersion registry s { version := v }).2 =
      Except.error
        { status_code := 404
          detail := "Could not load version '" ++ v ++ "': " ++ e } := by
  simp [setModelVersion, loadModelForVersion, hload]

/-- Witness for C4: a registry that fails on every URI leaves the concrete
state `⟨0, "1"⟩` untouched by `set_model_version "9"`. -/
theorem set_version_failure_preserves_state_witness :
    (setModelVersion (fun _ => (Except.error "boom" : Except String Nat))
        { model := 0, current_served_version := "1" }
        { version := "9" }).1 =
      { model := 0, current_served_version := "1" } :=
  (set_version_failure_preserves_state
    (fun _ => Except.error "boom")
    { model := 0, current_served_version := "1" } "9" "boom" rfl).1

/-- C5 counterexample: `health` reports the module-load constant `MODEL_URI`,
which `set_model_version` never updates.  After a successful switch to
version `"2"` the last successfully activated version is `"2"`, yet `health`
still reports `models:/iris-classifier/1`. -/
theorem health_uri_stale_after_switch :
    (setModelVersion sampleRegistry (initState 7) { version := "2" }).2 =
      Except.ok { model_name := MODEL_NAME, version := "2" } ∧
    (health (setModelVersion sampleRegistry (initState 7)
        { version := "2" }).1).2.model_uri = "models:/iris-classifier/1" ∧
    (health (setModelVersion sampleRegistry (initState 7)
        { version := "2" }).1).2.model_uri ≠ modelUriFor "2" :=
  ⟨rfl, rfl, by decide⟩

/-- C5 amended: `health` always succeeds and never modifies the state, but
the URI it reports is the fixed startup constant
`models:/iris-classifier/1` (built from the initially configured version),
whatever the current serving state is. -/
theorem health_always_ok_reports_startup_uri {H : Type}
    (s : ServingState H) :
    health s = (s, { status := "ok", model_uri := MODEL_URI }) ∧
    MODEL_URI = "models:/iris-classifier/1" := ⟨rfl, rfl⟩

/-- C6: when the registry load for version `v` fails with cause `c`, the
handler fails with status 404 and detail exactly
`Could not load version '<v>': <c>`. -/
theorem set_version_failure_error_detail {H : Type}
    (registry : String → Except String H) (s : ServingState H) (v c : String)
    (hload : registry (modelUriFor v) = Except.error c) :
    (setModelVersion registry s { version := v }).2 =
      Except.error
        { status_code := 404
          detail := "Could not load version '" ++ v ++ "': " ++ c } := by
  simp [setModelVersion, loadModelForVersion, hload]

/-- Witness for C6: `sampleRegistry` fails on version `"9"` with cause
`RESOURCE_DOES_NOT_EXIST`, and the handler's detail embeds both. -/
theorem set_version_failure_error_detail_witness :
    (setModelVersion sampleRegistry
        { model := 0, current_served_version := "1" }
        { version := "9" }).2 =
      Except.error
        { status_code := 404
          detail :=
            "Could not load version '9': RESOURCE_DOES_NOT_EXIST" } := by
  have h := set_version_failure_error_detail sampleRegistry
    { model := 0, current_served_version := "1" } "9"
    "RESOURCE_DOES_NOT_EXIST" rfl
  simpa using h

/-- C10: `health`, `get_model_version` and `predict` return the state they
were given; `set_model_version` either leaves the state unchanged or the
registry load succeeded with some handle and the state becomes exactly that
handle paired with the requested version. -/
theorem handlers_frame_conditions {H : Type}
    (registry : String → Except String H) (s : ServingState H)
    (preq : PredictRequest) (sreq : SelectVersionRequest) :
    (health s).1 = s ∧
    (getModelVersion s).1 = s ∧
    (predict s preq).1 = s ∧
    ((setModelVersion registry s sreq).1 = s ∨
      ∃ loaded : H,
        loadModelForVersion registry sreq.version = Except.ok loaded ∧
        (setModelVersion registry s sreq).1 =
          { model := loaded, current_served_version := sreq.version }) := by
  refine ⟨rfl, rfl, rfl, ?_⟩
  unfold setModelVersion
  cases hload : loadModelForVersion registry sreq.version with
  | error e => exact Or.inl rfl
  | ok loaded => exact Or.inr ⟨loaded, rfl, rfl⟩

/-- C2: the claim says `predict([])` always fails, but the handler has no
failure path at all: on the empty batch it returns a successful empty
`PredictResponse` from every state. -/
theorem predict_empty_batch_succeeds {H : Type} (s : ServingState H) :
    predict s { samples := [] } =
      (s, { class_id := [], class_label := [] }) := rfl

/-- C7: `get_model_version` always succeeds, leaves the state unchanged, and
returns the configured model name together with the current version string
verbatim. -/
theorem get_model_version_verbatim {H : Type} (s : ServingState H) :
    getModelVersion s =
      (s, { model_name := MODEL_NAME,
            version := s.current_served_version }) := rfl

/-- C8: the `predict` response is independent of the serving state (and of
the request): any two runs, under any two states holding handles of any two
types, return identical responses. -/
theorem predict_independent_of_state {H₁ H₂ : Type}
    (s₁ : ServingState H₁) (s₂ : ServingState H₂)
    (req₁ req₂ : PredictRequest) :
    (predict s₁ req₁).2 = (predict s₂ req₂).2 := rfl

/-- C9: in every response `predict` returns, the `class_id` and
`class_label` lists have equal length. -/
theorem predict_parallel_lengths {H : Type}
    (s : ServingState H) (req : PredictRequest) :
    (predict s req).2.class_id.length =
      (predict s req).2.class_label.length := rfl

end IrisServer
